import Mathlib

/-!
Shallow embedding of the danacup settlement flow: wallet ledger, order
payment, cancellation and refund, and order materialization from a cart.
Monetary amounts are modelled as integers in minor units (the source
stores them as fixed-point decimals with two decimal places, which scale
exactly to integers); statuses and payment methods are the string
literals the source uses.  Each request handler from the views is
translated as a pure function from a state to an outcome and a new state;
a handler that returns an error response without committing anything is a
function returning the unchanged state.
-/

namespace Danacup

/-- Outcome of a request handler, identifying which response branch of the
source view produced it. -/
inductive Outcome where
  | ok
  | alreadyPaid
  | insufficientFunds
  | invalidTransition
  | notImplemented
  | unsupportedMethod
  | integrityError
  | emptyCart
  | invalidAmount
  | error
deriving Repr, DecidableEq

/-- Transaction row (core/models.py, class Transaction): amount,
transaction_type in {deposit, withdrawal, purchase, refund}, and an
optional link to an order.  The model here tracks a single order, so the
optional foreign key is a Bool saying whether the row is linked to it. -/
structure Transaction where
  amount : Int
  transaction_type : String
  order_link : Bool
deriving Repr, DecidableEq

/-- Wallet row (core/models.py, class Wallet): just the balance. -/
structure Wallet where
  balance : Int
deriving Repr, DecidableEq

/-- Modelled from the spec: the model method `Wallet.deposit` is called by
the views (wallet/views.py line 155, order/views.py line 121,
payment/views.py line 276) but its body is not under src/.  Spec section
4.1: requires amount > 0; increases balance by amount; appends a
deposit-type Transaction; returns the Transaction; atomic; no failure
mode other than invalid amount, which is rejected before reaching this
layer. -/
def Wallet.deposit (w : Wallet) (txs : List Transaction) (amount : Int) :
    Wallet × List Transaction :=
  ({ balance := w.balance + amount },
   txs ++ [{ amount := amount, transaction_type := "deposit", order_link := false }])

/-- Modelled from the spec: the model method `Wallet.withdraw` is called by
the views (wallet/views.py line 202, order/views.py line 167,
payment/views.py line 184) but its body is not under src/.  Spec section
4.1: requires amount > 0 and amount ≤ current balance; decreases balance;
appends a withdrawal-type Transaction; fails with InsufficientFunds if
balance < amount.  Failure is `none`; the callers catch it. -/
def Wallet.withdraw (w : Wallet) (txs : List Transaction) (amount : Int) :
    Option (Wallet × List Transaction) :=
  if w.balance < amount then none
  else some ({ balance := w.balance - amount },
    txs ++ [{ amount := amount, transaction_type := "withdrawal", order_link := false }])

/-- Order row (core/models.py, class Order): status, payment_status and the
total_amount snapshot.  Defaults are status = pending and
payment_status = pending. -/
structure Order where
  status : String
  payment_status : String
  total_amount : Int
deriving Repr, DecidableEq

/-- Payment row (core/models.py, class Payment): amount, payment_method in
{wallet, credit_card, bank_transfer}, status in
{pending, completed, failed, refunded}. -/
structure Payment where
  amount : Int
  payment_method : String
  status : String
deriving Repr, DecidableEq

/-- Settlement state: one user with their wallet, the transaction rows, one
order, and the at-most-one Payment row of that order (Payment.order is a
OneToOneField in core/models.py, so a second create for the same order
raises an integrity error). -/
structure St where
  wallet : Wallet
  txs : List Transaction
  order : Order
  payment : Option Payment
deriving Repr, DecidableEq

/-- OrderViewSet.pay (order/views.py lines 149-176): reject when the order
is already paid; reject with insufficient funds when balance <
total_amount; otherwise withdraw total_amount from the wallet and set
payment_status to paid.  No Payment row and no purchase Transaction are
created on this path; the only new Transaction row is the
withdrawal-typed one appended by Wallet.withdraw. -/
def pay (s : St) : Outcome × St :=
  if s.order.payment_status = "paid" then (Outcome.alreadyPaid, s)
  else if s.wallet.balance < s.order.total_amount then (Outcome.insufficientFunds, s)
  else
    match Wallet.withdraw s.wallet s.txs s.order.total_amount with
    | none => (Outcome.error, s)
    | some (w, t) =>
      (Outcome.ok,
        { s with wallet := w, txs := t,
                 order := { s.order with payment_status := "paid" } })

/-- OrderViewSet.cancel (order/views.py lines 105-128): only pending or
processing orders may be cancelled; the status becomes cancelled and, when
payment_status is paid, total_amount is deposited back into the wallet.
payment_status itself is left untouched. -/
def cancel (s : St) : Outcome × St :=
  if s.order.status = "pending" ∨ s.order.status = "processing" then
    let s1 : St := { s with order := { s.order with status := "cancelled" } }
    if s.order.payment_status = "paid" then
      let (w, t) := Wallet.deposit s1.wallet s1.txs s.order.total_amount
      (Outcome.ok, { s1 with wallet := w, txs := t })
    else (Outcome.ok, s1)
  else (Outcome.invalidTransition, s)

/-- PaymentViewSet.process_payment (payment/views.py lines 147-240), for a
given payment_method string.  Already-paid orders are rejected first.  The
wallet branch checks the balance, creates a completed Payment row, calls
Wallet.withdraw, appends a purchase-typed Transaction linked to the order,
and marks the order paid, all inside one atomic block.  The credit_card
and bank_transfer branches create a pending Payment row and answer 501 not
implemented.  Creating a Payment when the order already has one raises an
integrity error; the atomic block then rolls back and the handler answers
400, leaving the state unchanged. -/
def process_payment (s : St) (payment_method : String) : Outcome × St :=
  if s.order.payment_status = "paid" then (Outcome.alreadyPaid, s)
  else if payment_method = "wallet" then
    if s.wallet.balance < s.order.total_amount then (Outcome.insufficientFunds, s)
    else
      match s.payment with
      | some _ => (Outcome.integrityError, s)
      | none =>
        let p : Payment :=
          { amount := s.order.total_amount, payment_method := "wallet",
            status := "completed" }
        match Wallet.withdraw s.wallet s.txs s.order.total_amount with
        | none => (Outcome.error, s)
        | some (w, t) =>
          (Outcome.ok,
            { wallet := w,
              txs := t ++ [{ amount := s.order.total_amount,
                             transaction_type := "purchase", order_link := true }],
              order := { s.order with payment_status := "paid" },
              payment := some p })
  else if payment_method = "credit_card" then
    match s.payment with
    | some _ => (Outcome.integrityError, s)
    | none =>
      (Outcome.notImplemented,
        { s with payment := some { amount := s.order.total_amount,
                                   payment_method := "credit_card",
                                   status := "pending" } })
  else if payment_method = "bank_transfer" then
    match s.payment with
    | some _ => (Outcome.integrityError, s)
    | none =>
      (Outcome.notImplemented,
        { s with payment := some { amount := s.order.total_amount,
                                   payment_method := "bank_transfer",
                                   status := "pending" } })
  else (Outcome.unsupportedMethod, s)

/-- PaymentViewSet.refund (payment/views.py lines 262-321): only completed
payments may be refunded.  For the wallet method: deposit the payment
amount back into the wallet, append a refund-typed Transaction linked to
the order, set the payment status and the order payment_status to
refunded.  For credit_card and bank_transfer the statuses are still
flipped to refunded but the handler answers 501 not implemented. -/
def refund (s : St) : Outcome × St :=
  match s.payment with
  | none => (Outcome.error, s)
  | some p =>
    if p.status ≠ "completed" then (Outcome.invalidTransition, s)
    else if p.payment_method = "wallet" then
      let (w, t) := Wallet.deposit s.wallet s.txs p.amount
      (Outcome.ok,
        { wallet := w,
          txs := t ++ [{ amount := p.amount, transaction_type := "refund",
                         order_link := true }],
          order := { s.order with payment_status := "refunded" },
          payment := some { p with status := "refunded" } })
    else if p.payment_method = "credit_card" ∨ p.payment_method = "bank_transfer" then
      (Outcome.notImplemented,
        { s with order := { s.order with payment_status := "refunded" },
                 payment := some { p with status := "refunded" } })
    else (Outcome.error, s)

/-- A wallet-endpoint request: WalletViewSet.deposit or
WalletViewSet.withdraw with a requested amount. -/
inductive WalletOp where
  | deposit (amount : Int)
  | withdraw (amount : Int)
deriving Repr, DecidableEq

/-- Ledger-only state for the wallet endpoints: the wallet and its
transaction rows. -/
structure Ledger where
  wallet : Wallet
  txs : List Transaction
deriving Repr, DecidableEq

/-- WalletViewSet.deposit / WalletViewSet.withdraw (wallet/views.py lines
144-161 and 191-208): a missing or non-positive amount is rejected before
the model method runs; a withdrawal beyond the balance makes
Wallet.withdraw fail, the handler catches it and answers 400 leaving the
state unchanged. -/
def wallet_step (l : Ledger) (op : WalletOp) : Outcome × Ledger :=
  match op with
  | WalletOp.deposit a =>
    if a ≤ 0 then (Outcome.invalidAmount, l)
    else
      let (w, t) := Wallet.deposit l.wallet l.txs a
      (Outcome.ok, { wallet := w, txs := t })
  | WalletOp.withdraw a =>
    if a ≤ 0 then (Outcome.invalidAmount, l)
    else
      match Wallet.withdraw l.wallet l.txs a with
      | none => (Outcome.insufficientFunds, l)
      | some (w, t) => (Outcome.ok, { wallet := w, txs := t })

/-- Run a sequence of wallet endpoint requests, threading the ledger. -/
def wallet_run (l : Ledger) : List WalletOp → Ledger
  | [] => l
  | op :: rest => wallet_run (wallet_step l op).2 rest

/-- Product row, reduced to what checkout reads: the current catalog
price. -/
structure Product where
  price : Int
deriving Repr, DecidableEq

/-- CartItem row (core/models.py): product and quantity. -/
structure CartItem where
  product : Product
  quantity : Nat
deriving Repr, DecidableEq

/-- OrderItem row (core/models.py): product, quantity, and the price
snapshot taken at order creation. -/
structure OrderItem where
  product : Product
  quantity : Nat
  price : Int
deriving Repr, DecidableEq

/-- An order together with its items, as materialized by checkout. -/
structure OrderRec where
  status : String
  payment_status : String
  total_amount : Int
  items : List OrderItem
deriving Repr, DecidableEq

/-- Checkout state: the cart lines of the user and the orders created so
far. -/
structure CheckoutSt where
  cart : List CartItem
  orders : List OrderRec
deriving Repr, DecidableEq

/-- Modelled from the spec: the model method `Cart.get_total` is called by
the views (order/views.py line 63, cart/views.py line 216) but its body is
not under src/.  Spec sections 4.2 and 3: total = sum of quantity times
the live catalog unit price (the in-source property Cart.total_price,
core/models.py line 136, computes the same sum). -/
def get_total (cart : List CartItem) : Int :=
  (cart.map (fun item => item.product.price * (item.quantity : Int))).sum

/-- The order and items built by create_from_cart (order/views.py lines
61-74): total_amount = cart.get_total(), defaults pending/pending, one
OrderItem per cart line with price snapshotted from the current product
price. -/
def materialize (cart : List CartItem) : OrderRec :=
  { status := "pending", payment_status := "pending",
    total_amount := get_total cart,
    items := cart.map (fun ci =>
      { product := ci.product, quantity := ci.quantity,
        price := ci.product.price }) }

/-- OrderViewSet.create_from_cart (order/views.py lines 53-84): an empty
cart is rejected; otherwise one Order is created as in `materialize` and
the cart is cleared (the model method Cart.clear is not under src/; spec
section 4.2 says it deletes all line items). -/
def create_from_cart (s : CheckoutSt) : Outcome × CheckoutSt :=
  if s.cart.isEmpty then (Outcome.emptyCart, s)
  else (Outcome.ok, { cart := [], orders := s.orders ++ [materialize s.cart] })

/-- Empty ledger: a fresh wallet (balance defaults to 0 in core/models.py)
with no transaction rows. -/
def l0 : Ledger := { wallet := { balance := 0 }, txs := [] }

/-- The spec scenario state of section 8: wallet balance 100, one order of
total 60, unpaid, no Payment row yet. -/
def s10 : St :=
  { wallet := { balance := 100 }, txs := [],
    order := { status := "pending", payment_status := "pending", total_amount := 60 },
    payment := none }

/-- A state whose order is already paid while the wallet is empty. -/
def sPaidLow : St :=
  { wallet := { balance := 0 }, txs := [],
    order := { status := "pending", payment_status := "paid", total_amount := 60 },
    payment := some { amount := 60, payment_method := "wallet", status := "completed" } }

/-- An unpaid order that already has a pending credit_card Payment row,
with enough wallet balance to cover the total. -/
def sPriorPayment : St :=
  { wallet := { balance := 100 }, txs := [],
    order := { status := "pending", payment_status := "pending", total_amount := 60 },
    payment := some { amount := 60, payment_method := "credit_card", status := "pending" } }

/-- The spec scenario state of section 8 after paying: a pending order of
total 60 already paid through a completed wallet Payment, balance 40. -/
def sPaid40 : St :=
  { wallet := { balance := 40 }, txs := [],
    order := { status := "pending", payment_status := "paid", total_amount := 60 },
    payment := some { amount := 60, payment_method := "wallet", status := "completed" } }

/-- An unpaid pending order of total 60 whose owner only has balance 10. -/
def sLow : St :=
  { wallet := { balance := 10 }, txs := [],
    order := { status := "pending", payment_status := "pending", total_amount := 60 },
    payment := none }

/-- A one-line cart: two units of a product priced 25. -/
def sCheckout : CheckoutSt :=
  { cart := [{ product := { price := 25 }, quantity := 2 }], orders := [] }

/-- One wallet endpoint request keeps the balance non-negative. -/
theorem wallet_step_nonneg (l : Ledger) (op : WalletOp)
    (h : 0 ≤ l.wallet.balance) : 0 ≤ ((wallet_step l op).2).wallet.balance := by
  cases op with
  | deposit a =>
    by_cases ha : a ≤ 0
    · simpa [wallet_step, ha] using h
    · push_neg at ha
      simp only [wallet_step, if_neg (not_le.mpr ha), Wallet.deposit]
      linarith
  | withdraw a =>
    by_cases ha : a ≤ 0
    · simpa [wallet_step, ha] using h
    · by_cases hb : l.wallet.balance < a
      · simpa [wallet_step, ha, Wallet.withdraw, hb] using h
      · push_neg at hb
        simp only [wallet_step, if_neg ha, Wallet.withdraw, if_neg (not_lt.mpr hb)]
        linarith

/-- Any sequence of wallet endpoint requests keeps the balance
non-negative. -/
theorem wallet_run_nonneg (ops : List WalletOp) :
    ∀ l : Ledger, 0 ≤ l.wallet.balance → 0 ≤ (wallet_run l ops).wallet.balance := by
  induction ops with
  | nil => intro l h; simpa [wallet_run] using h
  | cons op rest ih =>
    intro l h
    rw [wallet_run]
    exact ih _ (wallet_step_nonneg l op h)

/-- C2: starting from a non-negative balance, the balance stays ≥ 0 after
any sequence of deposit and withdraw requests, and a withdraw whose amount
exceeds the current balance fails with InsufficientFunds leaving the
ledger unchanged. -/
theorem C2_theorem (l : Ledger) (h : 0 ≤ l.wallet.balance) :
    (∀ ops : List WalletOp, 0 ≤ (wallet_run l ops).wallet.balance) ∧
    (∀ ops : List WalletOp, ∀ a : Int,
      (wallet_run l ops).wallet.balance < a →
      wallet_step (wallet_run l ops) (WalletOp.withdraw a) =
        (Outcome.insufficientFunds, wallet_run l ops)) := by
  refine ⟨fun ops => wallet_run_nonneg ops l h, fun ops a ha => ?_⟩
  have h0 : 0 ≤ (wallet_run l ops).wallet.balance := wallet_run_nonneg ops l h
  have hpos : ¬ a ≤ 0 := by linarith
  simp [wallet_step, hpos, Wallet.withdraw, ha]

/-- C2 witness: from the empty ledger, deposit 5 and then ask to withdraw
7: the withdrawal fails with InsufficientFunds and changes nothing. -/
theorem C2_witness :
    wallet_step (wallet_run l0 [WalletOp.deposit 5]) (WalletOp.withdraw 7) =
      (Outcome.insufficientFunds, wallet_run l0 [WalletOp.deposit 5]) :=
  (C2_theorem l0 (by decide)).2 [WalletOp.deposit 5] 7 (by decide)

/-- C8: depositing a > 0 and then withdrawing the same a restores the
original balance and appends exactly two Transaction rows, one
deposit-typed and one withdrawal-typed. -/
theorem C8_theorem (l : Ledger) (a : Int) (ha : 0 < a)
    (hb : 0 ≤ l.wallet.balance) :
    wallet_run l [WalletOp.deposit a, WalletOp.withdraw a] =
      { wallet := l.wallet,
        txs := l.txs ++
          [{ amount := a, transaction_type := "deposit", order_link := false },
           { amount := a, transaction_type := "withdrawal", order_link := false }] } := by
  have ha2 : ¬ a ≤ 0 := not_le.mpr ha
  have hlt : ¬ l.wallet.balance + a < a := by linarith
  simp only [wallet_run, wallet_step, if_neg ha2, Wallet.deposit, Wallet.withdraw,
    if_neg hlt]
  congr 1
  · have : l.wallet.balance + a - a = l.wallet.balance := by ring
    rw [this]
  · simp

/-- C8 witness: from the empty ledger, deposit 5 then withdraw 5: the
balance is back to 0 and the ledger holds exactly the two new rows. -/
theorem C8_witness :
    wallet_run l0 [WalletOp.deposit 5, WalletOp.withdraw 5] =
      { wallet := l0.wallet,
        txs := l0.txs ++
          [{ amount := 5, transaction_type := "deposit", order_link := false },
           { amount := 5, transaction_type := "withdrawal", order_link := false }] } :=
  C8_theorem l0 5 (by decide) (by decide)

/-- C3: cancel succeeds exactly when order.status is pending or processing;
it then sets the status to cancelled and, when payment_status was paid,
deposits total_amount back into the wallet (appending the deposit-typed
Transaction row of Wallet.deposit) while payment_status stays paid; from
any other status it fails with InvalidTransition and mutates nothing. -/
theorem C3_theorem (s : St) :
    ((cancel s).1 = Outcome.ok ↔
      (s.order.status = "pending" ∨ s.order.status = "processing")) ∧
    ((s.order.status = "pending" ∨ s.order.status = "processing") →
      (s.order.payment_status = "paid" →
        cancel s = (Outcome.ok,
          { wallet := { balance := s.wallet.balance + s.order.total_amount },
            txs := s.txs ++
              [{ amount := s.order.total_amount, transaction_type := "deposit",
                 order_link := false }],
            order := { s.order with status := "cancelled" },
            payment := s.payment })) ∧
      (s.order.payment_status ≠ "paid" →
        cancel s = (Outcome.ok,
          { s with order := { s.order with status := "cancelled" } }))) ∧
    (¬(s.order.status = "pending" ∨ s.order.status = "processing") →
      cancel s = (Outcome.invalidTransition, s)) := by
  by_cases hst : s.order.status = "pending" ∨ s.order.status = "processing"
  · by_cases hps : s.order.payment_status = "paid"
    · refine ⟨?_, fun _ => ⟨fun _ => ?_, fun h => absurd hps h⟩, fun h => absurd hst h⟩
      · simp [cancel, hst, hps, Wallet.deposit]
      · simp [cancel, hst, hps, Wallet.deposit]
    · refine ⟨?_, fun _ => ⟨fun h => absurd h hps, fun _ => ?_⟩, fun h => absurd hst h⟩
      · simp [cancel, hst, hps]
      · simp [cancel, hst, hps]
  · refine ⟨?_, fun h => absurd h hst, fun _ => ?_⟩
    · simp [cancel, hst]
    · simp [cancel, hst]

/-- C3 witness: a pending, paid order of total 60 with wallet balance 40:
cancel succeeds, the order becomes cancelled, the balance becomes 100 and
payment_status is still paid; cancelling the resulting cancelled order
fails with InvalidTransition and changes nothing. -/
theorem C3_witness :
    (cancel sPaid40).1 = Outcome.ok ∧
    cancel sPaid40 = (Outcome.ok,
      { wallet := { balance := sPaid40.wallet.balance + sPaid40.order.total_amount },
        txs := sPaid40.txs ++
          [{ amount := sPaid40.order.total_amount, transaction_type := "deposit",
             order_link := false }],
        order := { sPaid40.order with status := "cancelled" },
        payment := sPaid40.payment }) ∧
    cancel (cancel sPaid40).2 = (Outcome.invalidTransition, (cancel sPaid40).2) := by
  refine ⟨((C3_theorem sPaid40).1).mpr (by decide),
          ((C3_theorem sPaid40).2.1 (by decide)).1 (by decide), ?_⟩
  exact (C3_theorem (cancel sPaid40).2).2.2 (by decide)

/-- C4: refund succeeds only on a completed Payment, failing with
InvalidTransition otherwise; for a wallet-method payment it deposits the
payment amount back into the wallet (appending the deposit-typed row of
Wallet.deposit), appends a refund-typed Transaction linked to the order,
sets the payment status to refunded and the order payment_status to
refunded. -/
theorem C4_theorem (s : St) (p : Payment) (hp : s.payment = some p) :
    (p.status ≠ "completed" → refund s = (Outcome.invalidTransition, s)) ∧
    (p.status = "completed" → p.payment_method = "wallet" →
      refund s = (Outcome.ok,
        { wallet := { balance := s.wallet.balance + p.amount },
          txs := s.txs ++
            [{ amount := p.amount, transaction_type := "deposit",
               order_link := false },
             { amount := p.amount, transaction_type := "refund",
               order_link := true }],
          order := { s.order with payment_status := "refunded" },
          payment := some { p with status := "refunded" } })) := by
  constructor
  · intro hns
    simp [refund, hp, hns]
  · intro hs hm
    simp [refund, hp, hs, hm, Wallet.deposit]

/-- C4 witness: the spec scenario after payment: a completed wallet Payment
of 60 on a paid order, balance 40.  refund succeeds with balance 100,
deposit and refund rows appended, Payment refunded, order payment_status
refunded; refunding the result again fails with InvalidTransition. -/
theorem C4_witness :
    refund sPaid40 = (Outcome.ok,
      { wallet := { balance := sPaid40.wallet.balance + 60 },
        txs := sPaid40.txs ++
          [{ amount := 60, transaction_type := "deposit", order_link := false },
           { amount := 60, transaction_type := "refund", order_link := true }],
        order := { sPaid40.order with payment_status := "refunded" },
        payment := some { amount := 60, payment_method := "wallet",
                          status := "refunded" } }) ∧
    refund (refund sPaid40).2 = (Outcome.invalidTransition, (refund sPaid40).2) := by
  refine ⟨(C4_theorem sPaid40 _ rfl).2 (by decide) (by decide), ?_⟩
  exact (C4_theorem (refund sPaid40).2
    { amount := 60, payment_method := "wallet", status := "refunded" }
    (by decide)).1 (by decide)

/-- C5: create_from_cart on an empty cart fails with EmptyCart creating
nothing; on a non-empty cart it creates exactly one new order whose item
count equals the number of cart lines, with every item price snapshotted
from the current product price, and leaves the cart empty. -/
theorem C5_theorem (s : CheckoutSt) :
    (s.cart = [] → create_from_cart s = (Outcome.emptyCart, s)) ∧
    (s.cart ≠ [] →
      create_from_cart s =
        (Outcome.ok, { cart := [], orders := s.orders ++ [materialize s.cart] }) ∧
      ((create_from_cart s).2).orders.length = s.orders.length + 1 ∧
      (materialize s.cart).items.length = s.cart.length ∧
      (∀ oi ∈ (materialize s.cart).items, oi.price = oi.product.price) ∧
      ((create_from_cart s).2).cart = []) := by
  constructor
  · intro h
    simp [create_from_cart, h]
  · intro h
    have hne : ¬ s.cart.isEmpty := by
      simpa [List.isEmpty_iff] using h
    refine ⟨by simp [create_from_cart, hne], by simp [create_from_cart, hne],
            by simp [materialize], ?_, by simp [create_from_cart, hne]⟩
    intro oi hoi
    simp only [materialize, List.mem_map] at hoi
    obtain ⟨ci, _, rfl⟩ := hoi
    rfl

/-- C5 witness: a one-line cart (two units at price 25): checkout succeeds
with one order of total 50, one item priced 25, and the cart empty; on the
resulting empty cart checkout fails with EmptyCart and changes nothing. -/
theorem C5_witness :
    create_from_cart sCheckout =
      (Outcome.ok,
        { cart := [], orders := sCheckout.orders ++ [materialize sCheckout.cart] }) ∧
    (materialize sCheckout.cart).items.length = sCheckout.cart.length ∧
    create_from_cart (create_from_cart sCheckout).2 =
      (Outcome.emptyCart, (create_from_cart sCheckout).2) := by
  refine ⟨((C5_theorem sCheckout).2 (by decide)).1,
          ((C5_theorem sCheckout).2 (by decide)).2.2.1, ?_⟩
  exact (C5_theorem (create_from_cart sCheckout).2).1 (by decide)

/-- C1 counterexample: the claim as stated fails on both entry points.  On
the unpaid order s10 with sufficient balance, pay succeeds but creates no
Payment row and no purchase-typed Transaction; and on sPriorPayment,
where the order already has a (pending) Payment row, process_payment with
the wallet method hits the one-Payment-per-order integrity error and
changes nothing instead of completing the payment. -/
theorem C1_counterexample :
    (pay s10).1 = Outcome.ok ∧
    ((pay s10).2).payment = none ∧
    (((pay s10).2).txs.filter (fun t => t.transaction_type = "purchase")) = [] ∧
    process_payment sPriorPayment "wallet" = (Outcome.integrityError, sPriorPayment) := by
  decide

/-- C1 amended: for an order that is not paid and whose owner has balance at
least total_amount, process_payment with the wallet method — provided the
order has no Payment row yet — atomically withdraws total_amount
(appending a withdrawal-typed row and a purchase-typed row linked to the
order), creates the Payment with status completed and sets payment_status
to paid; pay withdraws total_amount and sets payment_status to paid but
creates neither a Payment row nor a purchase Transaction. -/
theorem C1_theorem (s : St) (hps : s.order.payment_status ≠ "paid")
    (hb : s.order.total_amount ≤ s.wallet.balance) :
    (s.payment = none →
      process_payment s "wallet" =
        (Outcome.ok,
          { wallet := { balance := s.wallet.balance - s.order.total_amount },
            txs := s.txs ++
              [{ amount := s.order.total_amount, transaction_type := "withdrawal",
                 order_link := false },
               { amount := s.order.total_amount, transaction_type := "purchase",
                 order_link := true }],
            order := { s.order with payment_status := "paid" },
            payment := some { amount := s.order.total_amount,
                              payment_method := "wallet",
                              status := "completed" } })) ∧
    pay s =
      (Outcome.ok,
        { s with wallet := { balance := s.wallet.balance - s.order.total_amount },
                 txs := s.txs ++
                   [{ amount := s.order.total_amount,
                      transaction_type := "withdrawal", order_link := false }],
                 order := { s.order with payment_status := "paid" } }) := by
  have hblt : ¬ s.wallet.balance < s.order.total_amount := not_lt.mpr hb
  constructor
  · intro hp
    simp [process_payment, hps, hblt, hp, Wallet.withdraw]
  · simp [pay, hps, hblt, Wallet.withdraw]

/-- C1 witness: on the scenario state s10 (balance 100, total 60, no prior
Payment row), process_payment and pay both succeed and debit the wallet
down to 40. -/
theorem C1_witness :
    (process_payment s10 "wallet").1 = Outcome.ok ∧
    ((process_payment s10 "wallet").2).wallet.balance = 40 ∧
    (pay s10).1 = Outcome.ok := by
  have h := C1_theorem s10 (by decide) (by decide)
  refine ⟨?_, ?_, ?_⟩
  · rw [h.1 rfl]
  · rw [h.1 rfl]
    decide
  · rw [h.2]

/-- C6 counterexample: the claim quantifies over every order with
balance < total_amount, but on sPaidLow, an already-paid order of total 60
with balance 0, both pay and process_payment fail with AlreadyPaid, not
InsufficientFunds. -/
theorem C6_counterexample :
    sPaidLow.wallet.balance < sPaidLow.order.total_amount ∧
    pay sPaidLow = (Outcome.alreadyPaid, sPaidLow) ∧
    process_payment sPaidLow "wallet" = (Outcome.alreadyPaid, sPaidLow) ∧
    Outcome.alreadyPaid ≠ Outcome.insufficientFunds := by
  decide

/-- C6 amended: for an order that is not already paid and whose owner has
balance strictly below total_amount, pay and wallet-method process_payment
fail with InsufficientFunds and leave the whole state unchanged — no
balance change, no new Transaction or Payment row, payment_status
untouched (so it stays pending when it was pending). -/
theorem C6_theorem (s : St) (hps : s.order.payment_status ≠ "paid")
    (hb : s.wallet.balance < s.order.total_amount) :
    pay s = (Outcome.insufficientFunds, s) ∧
    process_payment s "wallet" = (Outcome.insufficientFunds, s) := by
  constructor
  · simp [pay, hps, hb]
  · simp [process_payment, hps, hb]

/-- C6 witness: on sLow (balance 10, total 60, pending), both entry points
fail with InsufficientFunds and change nothing. -/
theorem C6_witness :
    pay sLow = (Outcome.insufficientFunds, sLow) ∧
    process_payment sLow "wallet" = (Outcome.insufficientFunds, sLow) :=
  C6_theorem sLow (by decide) (by decide)

/-- C7: on an already-paid order, pay and process_payment (any method) fail
with AlreadyPaid and change nothing; consequently, starting from an unpaid
order with sufficient balance, paying twice debits the wallet exactly once
by total_amount, the second call failing with AlreadyPaid. -/
theorem C7_theorem (s : St) :
    (s.order.payment_status = "paid" →
      pay s = (Outcome.alreadyPaid, s) ∧
      ∀ m : String, process_payment s m = (Outcome.alreadyPaid, s)) ∧
    (s.order.payment_status ≠ "paid" → s.order.total_amount ≤ s.wallet.balance →
      (pay s).1 = Outcome.ok ∧
      pay (pay s).2 = (Outcome.alreadyPaid, (pay s).2) ∧
      ((pay s).2).wallet.balance = s.wallet.balance - s.order.total_amount) := by
  constructor
  · intro h
    exact ⟨by simp [pay, h], fun m => by simp [process_payment, h]⟩
  · intro hps hb
    have hblt : ¬ s.wallet.balance < s.order.total_amount := not_lt.mpr hb
    have hpay : pay s =
        (Outcome.ok,
          { s with wallet := { balance := s.wallet.balance - s.order.total_amount },
                   txs := s.txs ++
                     [{ amount := s.order.total_amount,
                        transaction_type := "withdrawal", order_link := false }],
                   order := { s.order with payment_status := "paid" } }) := by
      simp [pay, hps, hblt, Wallet.withdraw]
    refine ⟨by rw [hpay], ?_, by rw [hpay]⟩
    rw [hpay]
    simp [pay]

/-- C7 witness: paying s10 once succeeds leaving balance 40; paying again
fails with AlreadyPaid and changes nothing, so the wallet was debited
exactly once. -/
theorem C7_witness :
    (pay s10).1 = Outcome.ok ∧
    pay (pay s10).2 = (Outcome.alreadyPaid, (pay s10).2) ∧
    ((pay s10).2).wallet.balance = s10.wallet.balance - s10.order.total_amount :=
  (C7_theorem s10).2 (by decide) (by decide)

/-- C9 counterexample: the claim quantifies over every order, but on the
already-paid order sPaidLow, process_payment with credit_card answers
AlreadyPaid, not NotImplemented; and on sPriorPayment, whose order already
has a Payment row, it hits the one-Payment-per-order integrity error, again
not NotImplemented. -/
theorem C9_counterexample :
    (process_payment sPaidLow "credit_card").1 = Outcome.alreadyPaid ∧
    (process_payment sPaidLow "credit_card").1 ≠ Outcome.notImplemented ∧
    (process_payment sPriorPayment "credit_card").1 = Outcome.integrityError ∧
    (process_payment sPriorPayment "credit_card").1 ≠ Outcome.notImplemented := by
  decide

/-- C9 amended: for an order that is not paid and has no Payment row yet,
process_payment with credit_card or bank_transfer answers NotImplemented
without completing the payment: the wallet, transaction rows and order are
unchanged (payment_status included), and the Payment row it records is
pending, not completed. -/
theorem C9_theorem (s : St) (hps : s.order.payment_status ≠ "paid")
    (hp : s.payment = none) (m : String)
    (hm : m = "credit_card" ∨ m = "bank_transfer") :
    (process_payment s m).1 = Outcome.notImplemented ∧
    ((process_payment s m).2).wallet = s.wallet ∧
    ((process_payment s m).2).txs = s.txs ∧
    ((process_payment s m).2).order = s.order ∧
    ((process_payment s m).2).payment =
      some { amount := s.order.total_amount, payment_method := m,
             status := "pending" } := by
  rcases hm with rfl | rfl <;>
    simp [process_payment, hps, hp]

/-- C9 witness: on s10, credit_card processing answers NotImplemented,
leaves wallet, rows and order unchanged, and records a pending Payment. -/
theorem C9_witness :
    (process_payment s10 "credit_card").1 = Outcome.notImplemented ∧
    ((process_payment s10 "credit_card").2).wallet = s10.wallet ∧
    ((process_payment s10 "credit_card").2).txs = s10.txs ∧
    ((process_payment s10 "credit_card").2).order = s10.order ∧
    ((process_payment s10 "credit_card").2).payment =
      some { amount := s10.order.total_amount, payment_method := "credit_card",
             status := "pending" } :=
  C9_theorem s10 (by decide) (by decide) "credit_card" (Or.inl rfl)

/-- C10: from the reachable state obtained by paying order s10 through the
wallet (completed Payment, order paid, balance 100 − 60 = 40), cancel and
then refund both succeed: cancel deposits 60 (balance 100) while leaving
payment_status paid and the Payment completed, and refund deposits another
60 (balance 160), so a single debit of 60 is refunded twice. -/
theorem C10_theorem :
    (process_payment s10 "wallet").1 = Outcome.ok ∧
    ((process_payment s10 "wallet").2).wallet.balance = 40 ∧
    ((process_payment s10 "wallet").2).order.payment_status = "paid" ∧
    ((process_payment s10 "wallet").2).payment =
      some { amount := 60, payment_method := "wallet", status := "completed" } ∧
    (cancel (process_payment s10 "wallet").2).1 = Outcome.ok ∧
    ((cancel (process_payment s10 "wallet").2).2).wallet.balance = 100 ∧
    (refund (cancel (process_payment s10 "wallet").2).2).1 = Outcome.ok ∧
    ((refund (cancel (process_payment s10 "wallet").2).2).2).wallet.balance = 160 := by
  decide

end Danacup
